import Mathlib

/-!
Verification of the survey-processing pipeline of
talking-to-machines/survey-processing-code.

The repository is a Jupyter notebook driving six functions
(read_file_as_dataframe, select_columns, create_prompt_from_base,
afrobarometer_second_person_base, afrobarometer_third_person_base,
synthetic_interview) plus a kitchen_sink_prompt step, over Afrobarometer
Ghana round 9 data.  The notebook itself only calls these functions and
sets the configuration variables columns_demo, columns_resp and
question_text; the function bodies are not part of the repository
snapshot, so they are modelled here from the specification, while the
configuration data and the column-renaming line are embedded verbatim
from the notebook.
-/

namespace SurveyProcessing


/-- The error kinds of the pipeline (spec section 7). -/
inductive PipelineError where
  | fileFormatError
  | schemaError
  | missingColumnError (code : String)
  | unknownColumnError (code : String)
  | lengthMismatchError (expected actual : Nat)
  | emptySelectionError
deriving DecidableEq

instance {ε α : Type} [DecidableEq ε] [DecidableEq α] : DecidableEq (Except ε α) :=
  fun a b =>
    match a, b with
    | .error e, .error f =>
        if h : e = f then .isTrue (congrArg Except.error h)
        else .isFalse (fun hh => h (Except.error.inj hh))
    | .ok x, .ok y =>
        if h : x = y then .isTrue (congrArg Except.ok h)
        else .isFalse (fun hh => h (Except.ok.inj hh))
    | .error _, .ok _ => .isFalse (fun hh => Except.noConfusion hh)
    | .ok _, .error _ => .isFalse (fun hh => Except.noConfusion hh)

/-- An in-memory survey table: a header of column codes and one row of
raw coded values per respondent, each row aligned with the header. -/
structure SurveyTable where
  header : List String
  rows : List (List String)
deriving DecidableEq

/-- The raw value of a row at a given column code: the entry of the row
at the position of the code in the header. -/
def getCell (header : List String) (row : List String) (code : String) : String :=
  match header.indexOf? code with
  | some i => row.getD i ""
  | none => ""

/-- Modelled from the spec: `select_columns` (Column Selector, spec
section 4.2); its body is missing from the repository snapshot (the
notebook only calls it).  It restricts the table to the demographic
codes followed by the response codes, preserving row order, and fails
with `missingColumnError` naming a requested code absent from the
header. -/
def select_columns (t : SurveyTable) (demo resp : List String) :
    Except PipelineError SurveyTable :=
  let cols := demo ++ resp
  match cols.find? (fun c => !(t.header.contains c)) with
  | some c => .error (.missingColumnError c)
  | none =>
      .ok { header := cols
            rows := t.rows.map (fun r => cols.map (fun c => getCell t.header r c)) }

/-- One Codebook column: a static phrase table mapping raw coded values
to natural-language phrases, a default phrase for unmapped values, and
the fixed sentence template the phrase is substituted into (spec
sections 3 and 4.4). -/
structure ColumnSpec where
  phrases : List (String × String)
  defaultPhrase : String
  templatePre : String
  templatePost : String
deriving DecidableEq

/-- The Codebook: a static mapping from column code to its phrase table
(spec section 3). -/
abbrev Codebook := List (String × ColumnSpec)

/-- The phrase for one raw coded value under one Codebook column: the
mapped phrase, or the column's default phrase when the value is null,
blank, or absent from the phrase table (spec section 4.3). -/
def phraseFor (sp : ColumnSpec) (v : Option String) : String :=
  match v with
  | none => sp.defaultPhrase
  | some s => if s = "" then sp.defaultPhrase else (sp.phrases.lookup s).getD sp.defaultPhrase

/-- Modelled from the spec: the Phrase Mapper (spec section 4.3), the
per-value lookup inside `afrobarometer_second_person_base`, whose body
is missing from the repository snapshot (the notebook only calls it).
Looks up the code's phrase table in the Codebook and maps the raw value;
fails with `unknownColumnError` when the code has no Codebook entry. -/
def mapPhrase (cb : Codebook) (code : String) (v : Option String) :
    Except PipelineError String :=
  match cb.lookup code with
  | none => .error (.unknownColumnError code)
  | some sp => .ok (phraseFor sp v)

/-- The URBRUR Codebook column used in concrete scenarios. -/
def urbrurSpec : ColumnSpec :=
  { phrases := [("Urban", "urban"), ("Rural", "rural")]
    defaultPhrase := "unspecified"
    templatePre := "You live in an "
    templatePost := " area. " }

/-- The RESPNO Codebook column used in concrete scenarios. -/
def respnoSpec : ColumnSpec :=
  { phrases := [("1", "1")]
    defaultPhrase := "unspecified"
    templatePre := "Your respondent identifier is "
    templatePost := ". " }

/-- The Q1 Codebook column used in concrete scenarios. -/
def q1Spec : ColumnSpec :=
  { phrases := [("Yes", "yes"), ("No", "no")]
    defaultPhrase := "unspecified"
    templatePre := "You answered "
    templatePost := " to the question. " }

/-- A concrete Codebook used in the witness scenarios. -/
def afroCodebook : Codebook :=
  [("RESPNO", respnoSpec), ("URBRUR", urbrurSpec), ("Q1", q1Spec)]

/-- The sentence for one column of a row: the column's fixed template
with the mapped phrase substituted in (spec section 4.4). -/
def sentenceFor (sp : ColumnSpec) (v : Option String) : String :=
  sp.templatePre ++ phraseFor sp v ++ sp.templatePost

/-- The descriptive sentences for a row over a list of column codes, in
column order; fails with `unknownColumnError` on a code with no
Codebook entry. -/
def buildSentences (cb : Codebook) (row : List (String × String)) :
    List String → Except PipelineError String
  | [] => .ok ""
  | c :: rest =>
    match cb.lookup c with
    | none => .error (.unknownColumnError c)
    | some sp =>
      match buildSentences cb row rest with
      | .error e => .error e
      | .ok tail => .ok (sentenceFor sp (row.lookup c) ++ tail)

/-- Modelled from the spec: `afrobarometer_second_person_base`; its body
is missing from the repository snapshot (the notebook only calls it).
Per the README and spec section 4.4 it builds a second-person
descriptive preamble ("You are Ghanian and you live in...") by
substituting the row's mapped phrases into fixed sentence templates. -/
def afrobarometer_second_person_base (cb : Codebook) (demo : List String)
    (row : List (String × String)) : Except PipelineError String :=
  (buildSentences cb row demo).map (fun s => "You are Ghanaian. " ++ s)

/-- Modelled from the spec: `create_prompt_from_base` (Prompt Assembler,
spec section 4.4); its body is missing from the repository snapshot (the
notebook and README only name it).  It appends the fixed connective and
the target question text to the descriptive preamble. -/
def create_prompt_from_base (base question : String) : String :=
  base ++ "Answer the following question: " ++ question

/-- Modelled from the spec: `kitchen_sink_prompt` (the prompt-building
step `kitchen_sink_prompt(df, columns_demo, columns_resp, question_text)`
of the notebook, spec section 4.4); its body is missing from the
repository snapshot.  It validates the caller-level length contract
before touching any row, then turns each row's preamble into one prompt
for the target (final) question. -/
def kitchen_sink_prompt (bases : List String) (demo resp qt : List String) :
    Except PipelineError (List String) :=
  if qt.length = demo.length + resp.length then
    .ok (bases.map (fun b => create_prompt_from_base b (qt.getLastD "")))
  else
    .error (.lengthMismatchError (demo.length + resp.length) qt.length)

/-- One turn of an interview transcript (spec section 4.5). -/
inductive Turn where
  | interviewer (text : String)
  | respondent (text : String)
deriving DecidableEq

/-- The result of the Interview Reshaper: the withheld column and its
question, the preamble with the withheld phrase removed, and the
restructured transcript (spec section 3, InterviewRow). -/
structure InterviewRow where
  targetCode : String
  targetQuestion : String
  preamble : List (String × String)
  transcript : List Turn
deriving DecidableEq

/-- The respondent's answer phrase for a column, read off the preamble
pairs. -/
def answerFor (preamble : List (String × String)) (c : String) : String :=
  (preamble.lookup c).getD "unspecified"

/-- Modelled from the spec: `synthetic_interview` (Interview Reshaper,
spec section 4.5); its body is missing from the repository snapshot (the
notebook only calls it).  Input: a row's preamble as ordered
(column code, phrase) pairs and the ordered (response code, question
text) list.  It selects one response column uniformly, deterministically
from the caller-supplied seed, removes that column's phrase from the
preamble, emits alternating interviewer/respondent turns for the
remaining response columns in order, and ends with the withheld
question and no answer.  Fails with `emptySelectionError` when the
response column list is empty. -/
def synthetic_interview (preamble : List (String × String))
    (respQs : List (String × String)) (seed : Nat) :
    Except PipelineError InterviewRow :=
  match respQs with
  | [] => .error .emptySelectionError
  | q0 :: qs =>
    let k := seed % (q0 :: qs).length
    let w := (q0 :: qs).getD k q0
    let remaining := (q0 :: qs).eraseIdx k
    .ok { targetCode := w.1
          targetQuestion := w.2
          preamble := preamble.filter (fun p => p.1 != w.1)
          transcript :=
            remaining.flatMap
              (fun cq => [Turn.interviewer cq.2,
                          Turn.respondent (answerFor preamble cq.1)])
            ++ [Turn.interviewer w.2] }

/-- The number of interviewer questions in a transcript that are not
immediately followed by a respondent answer. -/
def unansweredCount : List Turn → Nat
  | [] => 0
  | [Turn.interviewer _] => 1
  | Turn.interviewer _ :: Turn.respondent _ :: rest => unansweredCount rest
  | Turn.interviewer _ :: Turn.interviewer t :: rest =>
      1 + unansweredCount (Turn.interviewer t :: rest)
  | Turn.respondent _ :: rest => unansweredCount rest

/-- The Interview Reshaper as an input/output relation: the pair of a
preamble row and a seed is related to the reshaper's result on them. -/
def ReshaperRun (preamble : List (String × String))
    (respQs : List (String × String)) (seed : Nat)
    (out : Except PipelineError InterviewRow) : Prop :=
  synthetic_interview preamble respQs seed = out

/-- The `columns_demo` configuration variable of the notebook, embedded
verbatim: a single comma-separated string of demographic column codes. -/
def columns_demo : String :=
  "RESPNO, URBRUR, REGION, Q1, Q100, Q101, Q2, Q94, Q95, Q84A, Q93A, Q93B, EA_SVC_A, EA_SVC_B, EA_SVC_C, EA_SVC_D, EA_FAC_D, Q91A, Q92A, Q90F, Q90G, Q4B, Q89A, Q89B, Q96, Q4A, Q8"

/-- The `columns_resp` configuration variable of the notebook, embedded
verbatim: a single comma-separated string of response column codes. -/
def columns_resp : String :=
  "Q6C, Q41A, Q41B, Q41C, Q41D, Q41G, Q45PT1, Q57A, Q57B, Q58A, Q58B, Q58C, Q59, Q7A, Q7B, Q9A, Q9B, Q9C, Q11B, Q11C, Q11D, Q11E, Q31, Q33D, Q33E, Q33I, Q83C_GHA, Q86A, Q86B, Q86C, Q86D, Q86E, Q86F, Q90I"

/-- The `question_text` configuration variable of the notebook, embedded
verbatim.  The Python source lists 62 string literals, but the literals
ending "...would you vote for?" and starting "In general, how would you
describe the present economic condition..." are adjacent with no comma
between them, so Python merges them into one element and the list has
61 elements. -/
def question_text : List String :=
  ["RESPNO",
   "Do you come from a rural or urban area?",
   "What region do you come from?",
   "How old are you?",
   "What is your gender?",
   "What is your race?",
   "What is the primary language you speak in your home?",
   "What is your highest level of education?",
   "What is your religion, if any?",
   "What is your ethnic community or cultural group?",
   "Do you have a job that pays a cash income? If yes, is it full time or part time? If no, are you currently looking for a job?",
   "What is your main occupation? If unemployed, retired, or disabled, what was your last main occupation?",
   "Does the enumeration area have an electricity grid that most houses can acess?",
   "Does the enumeration area have a piped water system that most houses can acess?",
   "Does the enumeration area have a sewage system that most houses can acess?",
   "Does the enumeration area have a mobile phone service that most houses can acess?",
   "Are health clinics (private or public or both) present in the enumeration area or in easy walking distance?",
   "What is your main source of water for household use?",
   "Do you have an electric connection to your home from the [national power grid]?",
   "Do you personally own a mobile phone? If not, does anyone else in your household own one?",
   "Do you personally own a mobile phone? If yes, does your phone have access to the Internet?",
   "In general, how would you describe your own present living conditions?",
   "Do you feel close to any particular political party?",
   "Which party is that?",
   "If presidential elections were held tomorrow, which party\x27s candidate would you vote for?In general, how would you describe the present economic condition of this country?",
   "When you get together with your friends or family, how often would you say you discuss political matters?",
   "In this country, how free are you to say what you think?",
   "Over the past year, how often, if ever, have you or anyone in your family gone without medicines or medical treatment?",
   "In the past 12 months, have you had contact with a public clinic or hospital?",
   "How easy or difficult was it to obtain the medical care or services you needed?",
   "How often, if ever, did you have to pay a bribe, give a gift, or do a favor for a health worker or clinic or hospital staff in order to get the medical care or services you needed?",
   "In general, when dealing with health workers and clinic or hospital staff, how much do you feel you can trust them?",
   "How well or badly would you say the current government is improving basic health services, or haven\x27t you heard enough to say?",
   "In your opinion, what are the most important problems facing this country that government should address?",
   "Please tell me whether you personally or any other member of your household have been affected by the COVID-19 pandemic by becoming ill with, or testing positive for, COVID-19?",
   "Please tell me whether you personally or any other member of your household have been affected by the COVID-19 pandemic by temporarily or permanently losing a job, business, or primary source of income?",
   "Have you received a vaccination against COVID-19, either one or two doses?",
   "If a vaccine for COVID-19 is available , how likely are you to try to get vaccinated?",
   "What is the main reason that you would be unlikely to get a COVID-19 vaccine?",
   "How much do you trust the government to ensure that any vaccine for COVID-19 that is developed or offered to Ghanian citizens is safe before it is used in this country?",
   "Over the past year, how often, if ever, have you or anyone in your family felt unsafe walking in your neighbourhood?",
   "Over the past year, how often, if ever, have you or anyone in your family feared crime in your own home?",
   "In this country, how free are you to say what you think?",
   "In this country, how free are you to join any political organization you want?",
   "In this country, how free are you to choose who to vote for without feeling pressured?",
   "During the past year, how often have you contacted any local government councillor about some important problem or to give them your views?",
   "During the past year, how often have you contacted any member of national assembly about some important problem or to give them your views?",
   "During the past year, how often have you contacted any political party official about some important problem or to give them your views?",
   "During the past year, how often have you contacted any traditional leader about some important problem or to give them your views?",
   "Overall, how satisfied are you with the way democracy works in Ghana?",
   "In your opinion, how often, in this country do people have to be careful of what they say about politics?",
   "In your opinion, how often, in this country are people treated unequally under the law?",
   "How often, if ever, are people treated unfairly by the government based on their economic status, that is, how rich or poor they are?",
   "To whom do you normally go to first for assistance, when you are concerned about your security and the security of your family?",
   "How much do you trust other Ghanaians?",
   "How much do you trust your relatives?",
   "How much do you trust your neighbours?",
   "How much do you trust other people you know?",
   "How much do you trust people from othe religions?",
   "How much do you trust people from other ethnic groups?",
   "How often do you use the Internet?"]

/-- The 27 demographic column codes listed inside `columns_demo`. -/
def demoCodeList : List String :=
  ["RESPNO", "URBRUR", "REGION", "Q1", "Q100", "Q101", "Q2", "Q94", "Q95", "Q84A", "Q93A", "Q93B", "EA_SVC_A", "EA_SVC_B", "EA_SVC_C", "EA_SVC_D", "EA_FAC_D", "Q91A", "Q92A", "Q90F", "Q90G", "Q4B", "Q89A", "Q89B", "Q96", "Q4A", "Q8"]

/-- The 34 response column codes listed inside `columns_resp`. -/
def respCodeList : List String :=
  ["Q6C", "Q41A", "Q41B", "Q41C", "Q41D", "Q41G", "Q45PT1", "Q57A", "Q57B", "Q58A", "Q58B", "Q58C", "Q59", "Q7A", "Q7B", "Q9A", "Q9B", "Q9C", "Q11B", "Q11C", "Q11D", "Q11E", "Q31", "Q33D", "Q33E", "Q33I", "Q83C_GHA", "Q86A", "Q86B", "Q86C", "Q86D", "Q86E", "Q86F", "Q90I"]

/-- The column-renaming step of the subsetting pipeline, embedded from
the notebook line
`df.columns = list(df.columns[:-len(question_text)]) + question_text`:
for a non-empty name list `qt`, the Python slice `df.columns[:-len(qt)]`
is the list of all column names but the last `len(qt)` ones, so the new
header is that unchanged front part followed by `qt`, and the row data
is untouched. -/
def rename_columns (t : SurveyTable) (qt : List String) : SurveyTable :=
  { header := t.header.take (t.header.length - qt.length) ++ qt
    rows := t.rows }

/-- C1: for every valid input (a table containing all requested codes),
the Column Selector succeeds, its output column order is exactly
`demo ++ resp`, and its rows are the input rows, in order, each
restricted to the selected columns. -/
theorem select_columns_order (t : SurveyTable) (demo resp : List String)
    (h : ∀ c ∈ demo ++ resp, c ∈ t.header) :
    ∃ t', select_columns t demo resp = .ok t'
      ∧ t'.header = demo ++ resp
      ∧ t'.rows = t.rows.map
          (fun r => (demo ++ resp).map (fun c => getCell t.header r c)) := by
  have hfind : (demo ++ resp).find? (fun c => !(t.header.contains c)) = none := by
    rw [List.find?_eq_none]
    intro c hc
    simpa using h c hc
  simp only [select_columns, hfind]
  exact ⟨_, rfl, rfl, rfl⟩

/-- Witness for C1 at a concrete table. -/
theorem select_columns_order_witness :
    (∀ c ∈ ["RESPNO", "URBRUR"] ++ ["Q1"],
        c ∈ (⟨["RESPNO", "URBRUR", "Q1", "EXTRA"],
             [["1", "Urban", "Yes", "x"], ["2", "Rural", "No", "y"]]⟩ :
             SurveyTable).header)
    ∧ ∃ t', select_columns
        ⟨["RESPNO", "URBRUR", "Q1", "EXTRA"],
         [["1", "Urban", "Yes", "x"], ["2", "Rural", "No", "y"]]⟩
        ["RESPNO", "URBRUR"] ["Q1"] = .ok t'
      ∧ t'.header = ["RESPNO", "URBRUR"] ++ ["Q1"]
      ∧ t'.rows = [["1", "Urban", "Yes", "x"], ["2", "Rural", "No", "y"]].map
          (fun r => (["RESPNO", "URBRUR"] ++ ["Q1"]).map
            (fun c => getCell ["RESPNO", "URBRUR", "Q1", "EXTRA"] r c)) :=
  ⟨by decide, select_columns_order _ _ _ (by decide)⟩

/-- C3: for a column with a Codebook entry the Phrase Mapper always
returns a phrase (the default phrase whenever the value is null, blank
or unmapped), and it fails with `unknownColumnError` exactly when the
column code has no Codebook entry. -/
theorem phrase_mapper_total (cb : Codebook) (code : String) (v : Option String) :
    (∀ sp, cb.lookup code = some sp →
        mapPhrase cb code v = .ok (phraseFor sp v)
        ∧ ((v = none ∨ v = some "" ∨ ∃ s, v = some s ∧ sp.phrases.lookup s = none) →
            mapPhrase cb code v = .ok sp.defaultPhrase))
    ∧ (mapPhrase cb code v = .error (.unknownColumnError code) ↔ cb.lookup code = none) := by
  constructor
  · intro sp hsp
    refine ⟨by simp [mapPhrase, hsp], ?_⟩
    rintro (rfl | rfl | ⟨s, rfl, hs⟩)
    · simp [mapPhrase, hsp, phraseFor]
    · simp [mapPhrase, hsp, phraseFor]
    · by_cases h0 : s = "" <;> simp [mapPhrase, hsp, phraseFor, h0, hs]
  · cases hcb : cb.lookup code <;> simp [mapPhrase, hcb]

/-- Witness for C3: an unmapped value under a declared column yields the
default phrase, and an undeclared column yields `unknownColumnError`. -/
theorem phrase_mapper_total_witness :
    mapPhrase afroCodebook "URBRUR" (some "zzz") = .ok "unspecified"
    ∧ mapPhrase afroCodebook "NOPE" (some "x") =
        .error (.unknownColumnError "NOPE") := by
  constructor
  · have h := ((phrase_mapper_total afroCodebook "URBRUR" (some "zzz")).1
      urbrurSpec (by decide)).2 (Or.inr (Or.inr ⟨"zzz", rfl, by decide⟩))
    simpa [urbrurSpec] using h
  · exact (phrase_mapper_total afroCodebook "NOPE" (some "x")).2.mpr (by decide)

/-- C4: whenever the length of `question_text` differs from the total
selected-column count, the Prompt Assembler fails with
`lengthMismatchError` for every row list, before any row is processed,
so no output rows are produced. -/
theorem kitchen_sink_prompt_length_guard (demo resp qt : List String)
    (h : qt.length ≠ demo.length + resp.length) :
    ∀ bases, kitchen_sink_prompt bases demo resp qt =
      .error (.lengthMismatchError (demo.length + resp.length) qt.length) := by
  intro bases
  simp [kitchen_sink_prompt, h]

/-- Witness for C4: question texts of length 2 against 3 selected
columns fail with `lengthMismatchError` (the spec's failure scenario). -/
theorem kitchen_sink_prompt_length_guard_witness :
    kitchen_sink_prompt ["You are Ghanaian. "] ["A", "B"] ["C"] ["q1", "q2"] =
      .error (.lengthMismatchError 3 2) :=
  kitchen_sink_prompt_length_guard ["A", "B"] ["C"] ["q1", "q2"] (by decide)
    ["You are Ghanaian. "]

/-- C7: every assembled prompt ends with the literal
"Answer the following question: " followed by the target question text,
every second-person preamble begins with "You are", and in the spec's
round-trip scenario (RESPNO = 1, URBRUR = Urban, Q1 = Yes, question
texts "respondent id", "area", "Q1 phrase?") the assembled prompt starts
with "You are", contains "urban", and ends with the question text after
"Answer the following question: ". -/
theorem kitchen_sink_prompt_shape :
    (∀ base question, ∃ pre,
        create_prompt_from_base base question =
          pre ++ ("Answer the following question: " ++ question))
    ∧ (∀ cb demo row b,
        afrobarometer_second_person_base cb demo row = .ok b →
        ∃ rest, b = "You are" ++ rest)
    ∧ (∃ b, afrobarometer_second_person_base afroCodebook ["RESPNO", "URBRUR"]
          [("RESPNO", "1"), ("URBRUR", "Urban"), ("Q1", "Yes")] = .ok b
        ∧ (∃ r, b = "You are" ++ r)
        ∧ (∃ x y, create_prompt_from_base b "Q1 phrase?" = x ++ "urban" ++ y)
        ∧ (∃ p, create_prompt_from_base b "Q1 phrase?" =
            p ++ ("Answer the following question: " ++ "Q1 phrase?"))
        ∧ kitchen_sink_prompt [b] ["RESPNO", "URBRUR"] ["Q1"]
            ["respondent id", "area", "Q1 phrase?"] =
          .ok [create_prompt_from_base b "Q1 phrase?"]) := by
  refine ⟨?_, ?_, ?_⟩
  · intro base question
    exact ⟨base, String.append_assoc base "Answer the following question: " question⟩
  · intro cb demo row b hb
    unfold afrobarometer_second_person_base at hb
    cases h : buildSentences cb row demo with
    | error e => rw [h] at hb; simp [Except.map] at hb
    | ok s =>
        rw [h] at hb
        simp only [Except.map, Except.ok.injEq] at hb
        refine ⟨" Ghanaian. " ++ s, ?_⟩
        rw [← hb, ← String.append_assoc]
        have hsplit : ("You are Ghanaian. " : String) = "You are" ++ " Ghanaian. " := by
          decide
        rw [← hsplit]
  · refine ⟨"You are Ghanaian. Your respondent identifier is 1. You live in an urban area. ",
      by decide, ⟨" Ghanaian. Your respondent identifier is 1. You live in an urban area. ",
        by decide⟩,
      ⟨"You are Ghanaian. Your respondent identifier is 1. You live in an ",
       " area. Answer the following question: Q1 phrase?", by decide⟩,
      ⟨"You are Ghanaian. Your respondent identifier is 1. You live in an urban area. ",
        by decide⟩,
      by decide⟩

/-- Witness for C7 at a concrete second-person preamble: the preamble
produced for an empty column selection begins with "You are". -/
theorem kitchen_sink_prompt_shape_witness :
    ∃ rest, ("You are Ghanaian. " : String) = "You are" ++ rest :=
  kitchen_sink_prompt_shape.2.1 [] [] [] "You are Ghanaian. " (by decide)

/-- A question-answer transcript followed by one final question has
exactly one unanswered question. -/
theorem unansweredCount_qa_append (pre : List (String × String))
    (q : String) :
    ∀ l : List (String × String),
      unansweredCount
        (l.flatMap (fun cq => [Turn.interviewer cq.2,
                            Turn.respondent (answerFor pre cq.1)])
          ++ [Turn.interviewer q]) = 1
  | [] => rfl
  | _ :: tl => unansweredCount_qa_append pre q tl

/-- In a list with no duplicates every member occurs exactly once. -/
theorem count_eq_one_of_nodup_of_mem {α : Type} [BEq α] [LawfulBEq α]
    {l : List α} {a : α} (hn : l.Nodup) (ha : a ∈ l) : l.count a = 1 := by
  induction l with
  | nil => cases ha
  | cons b t ih =>
    rw [List.nodup_cons] at hn
    rw [List.count_cons]
    rcases List.mem_cons.mp ha with rfl | hat
    · have : t.count a = 0 := List.count_eq_zero.mpr hn.1
      simp [this]
    · have hba : ¬ b = a := fun h => hn.1 (h ▸ hat)
      have hne : (a == b) = false := beq_false_of_ne (fun h => hba h.symm)
      simp [hne, hba, ih hn.2 hat]

/-- The phrase of a column with the withheld code never survives the
preamble filter, when preamble phrases are pairwise distinct. -/
theorem notmem_filter_snd (preamble : List (String × String))
    (hphr : (preamble.map Prod.snd).Nodup) (c : String) (p : String × String)
    (hp : p ∈ preamble) (hpc : p.1 = c) :
    ((preamble.filter (fun q => q.1 != c)).map Prod.snd).count p.2 = 0 := by
  rw [List.count_eq_zero]
  intro hmem
  rcases List.mem_map.mp hmem with ⟨p', hp'f, hsnd⟩
  have hp'pre : p' ∈ preamble := (List.mem_filter.mp hp'f).1
  have hcond : (p'.1 != c) = true := (List.mem_filter.mp hp'f).2
  have hpp : p' = p := List.inj_on_of_nodup_map hphr hp'pre hp hsnd
  rw [hpp, hpc] at hcond
  simp at hcond

/-- A column whose code differs from the withheld code keeps exactly one
occurrence through the preamble filter, under a no-duplicate projection. -/
theorem count_one_filter_map {f : String × String → String}
    (preamble : List (String × String))
    (hf : (preamble.map f).Nodup) (c : String) (p : String × String)
    (hp : p ∈ preamble) (hne : p.1 ≠ c) :
    ((preamble.filter (fun q => q.1 != c)).map f).count (f p) = 1 := by
  have hmemf : p ∈ preamble.filter (fun q => q.1 != c) :=
    List.mem_filter.mpr ⟨hp, by simpa using hne⟩
  have hmem : f p ∈ (preamble.filter (fun q => q.1 != c)).map f :=
    List.mem_map_of_mem f hmemf
  have hnd : ((preamble.filter (fun q => q.1 != c)).map f).Nodup :=
    (((List.filter_sublist preamble).map f).nodup hf)
  exact count_eq_one_of_nodup_of_mem hnd hmem

/-- C2 (amended): for every preamble row with pairwise-distinct column codes and
pairwise-distinct phrases and every non-empty response column list, the
Interview Reshaper succeeds, the withheld column's phrase appears zero
times in the returned preamble, every other selected column's code and
phrase appear exactly once, the preamble keeps the original column
order (it is a sublist of the input preamble), and the transcript ends
with exactly one question that has no answer turn after it. -/
theorem synthetic_interview_spec (preamble : List (String × String))
    (respQs : List (String × String)) (seed : Nat)
    (hne : respQs ≠ [])
    (hcodes : (preamble.map Prod.fst).Nodup)
    (hphr : (preamble.map Prod.snd).Nodup) :
    ∃ iv, synthetic_interview preamble respQs seed = .ok iv
      ∧ (∀ p ∈ preamble, p.1 = iv.targetCode →
          (iv.preamble.map Prod.snd).count p.2 = 0)
      ∧ (∀ p ∈ preamble, p.1 ≠ iv.targetCode →
          (iv.preamble.map Prod.fst).count p.1 = 1
          ∧ (iv.preamble.map Prod.snd).count p.2 = 1)
      ∧ iv.preamble.Sublist preamble
      ∧ unansweredCount iv.transcript = 1
      ∧ iv.transcript.getLast? = some (Turn.interviewer iv.targetQuestion) := by
  cases respQs with
  | nil => exact absurd rfl hne
  | cons q0 qs =>
    refine ⟨_, rfl, ?_, ?_, ?_, ?_, ?_⟩
    · intro p hp hpc
      exact notmem_filter_snd preamble hphr _ p hp hpc
    · intro p hp hpc
      exact ⟨count_one_filter_map preamble hcodes _ p hp hpc,
             count_one_filter_map preamble hphr _ p hp hpc⟩
    · exact List.filter_sublist preamble
    · exact unansweredCount_qa_append preamble _ _
    · exact List.getLast?_concat _

/-- Witness for C2 at a concrete row and seed. -/
theorem synthetic_interview_spec_witness :
    ∃ iv, synthetic_interview [("URBRUR", "urban"), ("Q1", "yes")]
        [("Q1", "Did you answer yes?")] 0 = .ok iv
      ∧ (∀ p ∈ [("URBRUR", "urban"), ("Q1", "yes")], p.1 = iv.targetCode →
          (iv.preamble.map Prod.snd).count p.2 = 0)
      ∧ (∀ p ∈ [("URBRUR", "urban"), ("Q1", "yes")], p.1 ≠ iv.targetCode →
          (iv.preamble.map Prod.fst).count p.1 = 1
          ∧ (iv.preamble.map Prod.snd).count p.2 = 1)
      ∧ iv.preamble.Sublist [("URBRUR", "urban"), ("Q1", "yes")]
      ∧ unansweredCount iv.transcript = 1
      ∧ iv.transcript.getLast? = some (Turn.interviewer iv.targetQuestion) :=
  synthetic_interview_spec [("URBRUR", "urban"), ("Q1", "yes")]
    [("Q1", "Did you answer yes?")] 0 (by decide) (by decide) (by decide)

/-- C2 counterexample: at a row where two selected columns carry the
same phrase ("A" and "B" both answered "yes") and the response list is
`[("B", "QB?")]`, the reshaper withholds column "B", yet the withheld
column's phrase "yes" still appears once — not zero times — in the
returned preamble, because it also belongs to column "A".  So the
zero-occurrence guarantee does not hold for every PromptRow, only for
rows whose selected columns have pairwise-distinct phrases. -/
theorem synthetic_interview_withheld_phrase_counterexample :
    synthetic_interview [("A", "yes"), ("B", "yes")] [("B", "QB?")] 0 =
      .ok { targetCode := "B"
            targetQuestion := "QB?"
            preamble := [("A", "yes")]
            transcript := [Turn.interviewer "QB?"] }
    ∧ (([("A", "yes")] : List (String × String)).map Prod.snd).count "yes" = 1 := by
  decide

/-- C5: the Interview Reshaper is deterministic: two runs on the same
input row and the same caller-supplied seed produce the same result, in
particular the same withheld-column selection and the same transcript. -/
theorem synthetic_interview_deterministic (preamble : List (String × String))
    (respQs : List (String × String)) (seed : Nat)
    (o1 o2 : Except PipelineError InterviewRow)
    (h1 : ReshaperRun preamble respQs seed o1)
    (h2 : ReshaperRun preamble respQs seed o2) :
    o1 = o2 ∧ (∀ iv1 iv2, o1 = .ok iv1 → o2 = .ok iv2 →
      iv1.targetCode = iv2.targetCode ∧ iv1.transcript = iv2.transcript) := by
  have ho : o1 = o2 := h1.symm.trans h2
  refine ⟨ho, ?_⟩
  intro iv1 iv2 e1 e2
  rw [ho, e2] at e1
  rw [Except.ok.inj e1]
  exact ⟨rfl, rfl⟩

/-- Witness for C5 at a concrete row and seed. -/
theorem synthetic_interview_deterministic_witness :
    (.ok ⟨"Q1", "Did you answer yes?", [], [Turn.interviewer "Did you answer yes?"]⟩ :
        Except PipelineError InterviewRow) =
      .ok ⟨"Q1", "Did you answer yes?", [], [Turn.interviewer "Did you answer yes?"]⟩ :=
  (synthetic_interview_deterministic [] [("Q1", "Did you answer yes?")] 3 _ _
    rfl rfl).1

/-- C8: the Interview Reshaper fails with `emptySelectionError` exactly
when the response column list is empty. -/
theorem synthetic_interview_empty_iff (preamble : List (String × String))
    (respQs : List (String × String)) (seed : Nat) :
    synthetic_interview preamble respQs seed = .error .emptySelectionError
      ↔ respQs = [] := by
  cases respQs with
  | nil => simp [synthetic_interview]
  | cons q0 qs => simp [synthetic_interview]

set_option maxRecDepth 100000

/-- C6 counterexample: in the notebook's kitchen-sink configuration the
length of `question_text` (61 elements, counting the merged entry as
one) is EQUAL to the stated column count, the 27 codes of
`columns_demo` plus the 34 codes of `columns_resp`, refuting the
claim's conjunct that the two differ. -/
theorem question_text_length_matches_counterexample :
    columns_demo = String.intercalate ", " demoCodeList
    ∧ columns_resp = String.intercalate ", " respCodeList
    ∧ demoCodeList.length = 27 ∧ respCodeList.length = 34
    ∧ question_text.length = 61
    ∧ ¬ (question_text.length ≠ demoCodeList.length + respCodeList.length) := by
  decide

/-- C6 (amended): the notebook's `question_text` does contain one entry
formed of two sentences merged without separation (element 24 is the
concatenation of the two adjacent string literals with no comma between
them), but the length of `question_text` equals the stated column
count: 61 elements against 27 + 34 codes. -/
theorem question_text_merged_entry :
    question_text.getD 24 "" =
      "If presidential elections were held tomorrow, which party\x27s candidate would you vote for?"
      ++ "In general, how would you describe the present economic condition of this country?"
    ∧ question_text.length = demoCodeList.length + respCodeList.length := by
  decide

/-- C9 counterexample: in the source, `columns_demo` and `columns_resp`
are not lists of strings one per code but single comma-separated
strings (`columns_demo` is the comma-space join of its 27 codes and has
string length 175), so the claimed equation
`question_text.length = len(columns_demo) + len(columns_resp)` fails on
the variables as the source binds them. -/
theorem config_inputs_lists_counterexample :
    columns_demo = String.intercalate ", " demoCodeList
    ∧ demoCodeList.length = 27
    ∧ columns_demo.length = 175
    ∧ columns_resp.length = 200
    ∧ question_text.length ≠ columns_demo.length + columns_resp.length := by
  decide

/-- C9 (amended): the caller-supplied `columns_demo` and `columns_resp`
are each a single comma-separated string of column codes (27 and 34
codes respectively), and `question_text` is an ordered list of strings
whose length equals the total number of codes. -/
theorem config_inputs_amended :
    columns_demo = String.intercalate ", " demoCodeList
    ∧ columns_resp = String.intercalate ", " respCodeList
    ∧ question_text.length = demoCodeList.length + respCodeList.length := by
  decide

/-- C10: for every table with at least as many columns as
`question_text` has entries, the renaming step
`df.columns = list(df.columns[:-len(question_text)]) + question_text`
keeps the column count, keeps every column name before the renamed
suffix, keeps the rows (hence row order and all cell values), and sets
the last `question_text.length` column names to `question_text` in
order. -/
theorem rename_columns_frame (t : SurveyTable)
    (h : question_text.length ≤ t.header.length) :
    (rename_columns t question_text).header.length = t.header.length
    ∧ (rename_columns t question_text).header.take
        (t.header.length - question_text.length)
      = t.header.take (t.header.length - question_text.length)
    ∧ (rename_columns t question_text).header.drop
        (t.header.length - question_text.length) = question_text
    ∧ (rename_columns t question_text).rows = t.rows := by
  have hlen : (t.header.take (t.header.length - question_text.length)).length
      = t.header.length - question_text.length := by
    rw [List.length_take]
    exact Nat.min_eq_left (Nat.sub_le _ _)
  refine ⟨?_, ?_, ?_, rfl⟩
  · show (t.header.take (t.header.length - question_text.length)
      ++ question_text).length = _
    rw [List.length_append, hlen]
    omega
  · show (t.header.take (t.header.length - question_text.length)
      ++ question_text).take _ = _
    rw [List.take_left' hlen]
  · show (t.header.take (t.header.length - question_text.length)
      ++ question_text).drop _ = _
    rw [List.drop_left' hlen]

/-- Witness for C10 at the notebook's own selected table shape: a table
whose header is the 27 demographic codes followed by the 34 response
codes. -/
theorem rename_columns_frame_witness :
    question_text.length ≤
      (SurveyTable.mk (demoCodeList ++ respCodeList) []).header.length
    ∧ ((rename_columns (SurveyTable.mk (demoCodeList ++ respCodeList) [])
          question_text).header.length
        = (SurveyTable.mk (demoCodeList ++ respCodeList) []).header.length
      ∧ (rename_columns (SurveyTable.mk (demoCodeList ++ respCodeList) [])
          question_text).header.take
          ((SurveyTable.mk (demoCodeList ++ respCodeList) []).header.length
            - question_text.length)
        = (SurveyTable.mk (demoCodeList ++ respCodeList) []).header.take
          ((SurveyTable.mk (demoCodeList ++ respCodeList) []).header.length
            - question_text.length)
      ∧ (rename_columns (SurveyTable.mk (demoCodeList ++ respCodeList) [])
          question_text).header.drop
          ((SurveyTable.mk (demoCodeList ++ respCodeList) []).header.length
            - question_text.length)
        = question_text
      ∧ (rename_columns (SurveyTable.mk (demoCodeList ++ respCodeList) [])
          question_text).rows
        = (SurveyTable.mk (demoCodeList ++ respCodeList) []).rows) :=
  ⟨by decide, rename_columns_frame _ (by decide)⟩

end SurveyProcessing
